import Mathlib

/-!
Shallow embedding of the temporary-grant lifecycle manager of the
Discord-Rank-Bot repository (src/role_manager.py and the cleanup command of
src/bot.py).

The durable store (PostgreSQL table `temporary_roles`) is modelled as a list
of rows plus a serial counter; each public method of `RoleManager` becomes a
function that takes one Boolean per underlying I/O call (connection
acquisition, query execution) stating whether that call succeeds, mirroring
the try/except structure of the Python source.  The Discord collaborator
consulted by the reconciliation pass is abstracted as a function assigning to
each expired row the outcome of its processing, one constructor per branch of
the per-row loop body.
-/

namespace RankBot

deriving instance DecidableEq for Except

/-- One row of the `temporary_roles` table:
`id SERIAL PRIMARY KEY, user_id BIGINT, guild_id BIGINT, role_id BIGINT,
expiry_time TIMESTAMP, assigned_at TIMESTAMP`, unique on
`(user_id, guild_id, role_id)`. Timestamps are modelled as integers. -/
structure Row where
  id : Nat
  user_id : Int
  guild_id : Int
  role_id : Int
  expiry_time : Int
  assigned_at : Int
deriving DecidableEq

/-- The database state: whether the table and its two indexes exist
(created by `_ensure_table_exists`), the stored rows, and the next value of
the SERIAL `id` column. -/
structure Db where
  tableExists : Bool
  idxExpiry : Bool
  idxUserGuild : Bool
  rows : List Row
  nextId : Nat
deriving DecidableEq

/-- A database that has never been touched: no table, no indexes, no rows. -/
def freshDb : Db := ⟨false, false, false, [], 1⟩

/-- The single error kind surfaced by store operations: the connection could
not be established or a statement could not complete (every except-and-raise
path of the Python source re-raises the underlying database exception). -/
inductive DbError
  | storageUnavailable
deriving DecidableEq

/-- The `UNIQUE(user_id, guild_id, role_id)` key comparison. -/
def sameTriple (r : Row) (u g ro : Int) : Bool :=
  r.user_id == u && r.guild_id == g && r.role_id == ro

/-- `RoleManager._ensure_table_exists`: opens a connection and runs
`CREATE TABLE IF NOT EXISTS` plus the two `CREATE INDEX IF NOT EXISTS`
statements; any failure is logged and re-raised.  `ok` states whether this
whole call succeeds. -/
def ensure_table_exists (ok : Bool) (db : Db) : Except DbError Db :=
  if ok then
    Except.ok { db with tableExists := true, idxExpiry := true, idxUserGuild := true }
  else Except.error DbError.storageUnavailable

/-- The effect of the INSERT of `schedule_role_removal`:
`INSERT INTO temporary_roles (user_id, guild_id, role_id, expiry_time)
VALUES ($1,$2,$3,$4) ON CONFLICT (user_id, guild_id, role_id)
DO UPDATE SET expiry_time = $4, assigned_at = NOW()`.
`now` is the value of `NOW()` (also the `assigned_at` column default). -/
def upsert (db : Db) (u g ro t now : Int) : Db :=
  if db.rows.any (fun r => sameTriple r u g ro) then
    { db with rows := db.rows.map (fun r =>
        if sameTriple r u g ro then { r with expiry_time := t, assigned_at := now } else r) }
  else
    { db with rows := db.rows ++ [⟨db.nextId, u, g, ro, t, now⟩], nextId := db.nextId + 1 }

/-- `RoleManager.schedule_role_removal`: ensure the table, get a connection,
run the upsert; every failure is re-raised to the caller.  `eok`, `cok`,
`xok` state whether the ensure step, the connection acquisition and the
INSERT statement succeed. -/
def schedule_role_removal (eok cok xok : Bool) (db : Db) (u g ro t now : Int) :
    Except DbError Db := do
  let db ← ensure_table_exists eok db
  if cok then
    if xok && db.tableExists then Except.ok (upsert db u g ro t now)
    else Except.error DbError.storageUnavailable
  else Except.error DbError.storageUnavailable

/-- The fetch at the start of the reconciliation pass:
`SELECT * FROM temporary_roles WHERE expiry_time <= NOW()` — note the query
has no ORDER BY clause, so the rows come back in table order. -/
def listExpired (db : Db) (now : Int) : List Row :=
  db.rows.filter (fun r => decide (r.expiry_time ≤ now))

/-- Outcome of processing one expired row inside the cleanup loop, one
constructor per branch of the Python loop body:
the guild/member/role cache lookups returning nothing, the member no longer
holding the role, the `remove_roles` call succeeding or raising
`discord.Forbidden`, `discord.HTTPException` or any other exception, and an
exception raised anywhere else in the iteration (caught by the outer
per-row except). -/
inductive RowOutcome
  | guildMissing
  | memberMissing
  | roleMissing
  | notHeld
  | revokeOk
  | revokeForbidden
  | revokeHTTPError
  | revokeOtherError
  | processingError
deriving DecidableEq

/-- One iteration of the cleanup loop acting on the accumulator
`(roles_to_delete, roles_processed)`: every branch appends the row id to
`roles_to_delete`; only a confirmed removal increments `roles_processed`. -/
def processRow (acc : List Nat × Nat) (r : Row) (o : RowOutcome) : List Nat × Nat :=
  match o with
  | RowOutcome.guildMissing => (acc.1 ++ [r.id], acc.2)
  | RowOutcome.memberMissing => (acc.1 ++ [r.id], acc.2)
  | RowOutcome.roleMissing => (acc.1 ++ [r.id], acc.2)
  | RowOutcome.notHeld => (acc.1 ++ [r.id], acc.2)
  | RowOutcome.revokeOk => (acc.1 ++ [r.id], acc.2 + 1)
  | RowOutcome.revokeForbidden => (acc.1 ++ [r.id], acc.2)
  | RowOutcome.revokeHTTPError => (acc.1 ++ [r.id], acc.2)
  | RowOutcome.revokeOtherError => (acc.1 ++ [r.id], acc.2)
  | RowOutcome.processingError => (acc.1 ++ [r.id], acc.2)

/-- The whole `for role_data in expired_roles` loop. -/
def runLoop (collab : Row → RowOutcome) (expired : List Row) : List Nat × Nat :=
  expired.foldl (fun acc r => processRow acc r (collab r)) ([], 0)

/-- What one call of `cleanup_expired_roles` produces: the database after the
pass, the `roles_to_delete` list handed to the DELETE statement, the
`roles_processed` counter written to the log, and the Python return value
(`None` on every return path of the function). -/
structure CleanupResult where
  db : Db
  deletedIds : List Nat
  processed : Nat
  ret : Option Nat
deriving DecidableEq

/-- `RoleManager.cleanup_expired_roles`: ensure the table, get a connection,
fetch the expired rows (early return when there are none), run the per-row
loop, then `DELETE FROM temporary_roles WHERE id = ANY($1)` when
`roles_to_delete` is non-empty.  A failing fetch or DELETE is re-raised by
the outer except; collaborator outcomes never are.  `eok`, `cok`, `fok`,
`dok` state whether ensure, connect, the SELECT and the DELETE succeed. -/
def cleanup_expired_roles (eok cok fok dok : Bool) (db : Db)
    (collab : Row → RowOutcome) (now : Int) : Except DbError CleanupResult := do
  let db ← ensure_table_exists eok db
  if cok then
    if fok && db.tableExists then
      let expired := listExpired db now
      if expired.isEmpty then Except.ok ⟨db, [], 0, none⟩
      else
        let res := runLoop collab expired
        if res.1.isEmpty then Except.ok ⟨db, res.1, res.2, none⟩
        else if dok then
          Except.ok ⟨{ db with rows := db.rows.filter (fun r => !(decide (r.id ∈ res.1))) },
            res.1, res.2, none⟩
        else Except.error DbError.storageUnavailable
    else Except.error DbError.storageUnavailable
  else Except.error DbError.storageUnavailable

/-- The `ORDER BY expiry_time` comparison used by `get_user_temp_roles`. -/
def expiryLe (a b : Row) : Prop := a.expiry_time ≤ b.expiry_time

instance : DecidableRel expiryLe := fun a b => Int.decLe a.expiry_time b.expiry_time

instance : IsTotal Row expiryLe := ⟨fun a b => Int.le_total a.expiry_time b.expiry_time⟩

instance : IsTrans Row expiryLe := ⟨fun _ _ _ hab hbc => le_trans hab hbc⟩

/-- `RoleManager.get_user_temp_roles`: ensure the table, get a connection
(both outside the try, so their failures are re-raised), then
`SELECT * FROM temporary_roles WHERE user_id = $1 AND guild_id = $2
ORDER BY expiry_time`; a failure of the fetch itself is caught and an empty
list is returned instead. -/
def get_user_temp_roles (eok cok fok : Bool) (db : Db) (u g : Int) :
    Except DbError (List Row) := do
  let db ← ensure_table_exists eok db
  if cok then
    if fok && db.tableExists then
      Except.ok (List.insertionSort expiryLe
        (db.rows.filter (fun r => r.user_id == u && r.guild_id == g)))
    else Except.ok []
  else Except.error DbError.storageUnavailable

/-- `RoleManager.get_scheduled_count`: ensure the table, get a connection,
`SELECT COUNT(*) FROM temporary_roles`; a failure of the fetch is caught and
`0` is returned instead. -/
def get_scheduled_count (eok cok fok : Bool) (db : Db) : Except DbError Nat := do
  let db ← ensure_table_exists eok db
  if cok then
    if fok && db.tableExists then Except.ok db.rows.length
    else Except.ok 0
  else Except.error DbError.storageUnavailable

/-- `RoleManager.remove_scheduled_role`: ensure the table, get a connection,
`DELETE FROM temporary_roles WHERE user_id = $1 AND guild_id = $2 AND
role_id = $3`, returning whether the command tag equals `DELETE 1`; a failing
DELETE is caught and `False` is returned with the store untouched. -/
def remove_scheduled_role (eok cok xok : Bool) (db : Db) (u g ro : Int) :
    Except DbError (Db × Bool) := do
  let db ← ensure_table_exists eok db
  if cok then
    if xok && db.tableExists then
      Except.ok ({ db with rows := db.rows.filter (fun r => !(sameTriple r u g ro)) },
        (db.rows.filter (fun r => sameTriple r u g ro)).length == 1)
    else Except.ok (db, false)
  else Except.error DbError.storageUnavailable

/-- What the `/cleanup` slash command sends back: the database afterwards,
the remaining-scheduled count shown in the success embed (when one is sent),
and whether the error message was sent instead. -/
structure CommandReply where
  db : Db
  displayed : Option Nat
  errorShown : Bool
deriving DecidableEq

/-- `RankBot.cleanup_command` (src/bot.py): awaits
`role_manager.cleanup_expired_roles` discarding its result, then
`role_manager.get_scheduled_count`, and reports the remaining scheduled
count; any exception from either call yields the error message instead. -/
def cleanup_command (eok cok fok dok e2 c2 f2 : Bool) (db : Db)
    (collab : Row → RowOutcome) (now : Int) : CommandReply :=
  match cleanup_expired_roles eok cok fok dok db collab now with
  | Except.error _ => ⟨db, none, true⟩
  | Except.ok res =>
    match get_scheduled_count e2 c2 f2 res.db with
    | Except.error _ => ⟨res.db, none, true⟩
    | Except.ok n => ⟨res.db, some n, false⟩

/-- Observable shape of one connection-establishment call: whether it
succeeded, how many connect attempts were made, how many liveness round-trip
queries ran on the new connection before success was declared, and how many
seconds were spent waiting between attempts. -/
structure ConnAttemptResult where
  ok : Bool
  attemptsMade : Nat
  livenessQueries : Nat
  waitedSeconds : Nat
deriving DecidableEq

/-- `RoleManager._get_connection`: a single `asyncpg.connect` call inside a
try whose every except branch logs and re-raises — one attempt, no waiting,
and no query executed on the fresh connection.  `attempt i` states whether
the i-th connect attempt would succeed; the code only ever makes attempt 0. -/
def get_connection (attempt : Nat → Bool) : ConnAttemptResult :=
  ⟨attempt 0, 1, 0, 0⟩

/-- Modelled from the spec: `ConnectionSupervisor.connect` with bounded
retries — 3 attempts, 5-second spacing between attempts — and a trivial
round-trip liveness query immediately after establishing a connection,
before declaring success.  No code in src/ implements this behaviour
(`RoleManager.test_connection` runs `SELECT 1` but has no caller). -/
def connect_spec (attempt : Nat → Bool) (live : Bool) : ConnAttemptResult :=
  if attempt 0 then ⟨live, 1, 1, 0⟩
  else if attempt 1 then ⟨live, 2, 1, 5⟩
  else if attempt 2 then ⟨live, 3, 1, 10⟩
  else ⟨false, 3, 0, 10⟩

/-- The rows currently stored for one `(user_id, guild_id, role_id)` key. -/
def tripleRows (db : Db) (u g ro : Int) : List Row :=
  db.rows.filter (fun r => sameTriple r u g ro)

/-- The database after a successful `_ensure_table_exists` call. -/
def ensured (db : Db) : Db :=
  { db with tableExists := true, idxExpiry := true, idxUserGuild := true }

/-- A store holding one grant, expired at query time 10, with the schema in place. -/
def dbC2 : Db := ⟨true, true, true, [⟨1, 1, 10, 99, 5, 0⟩], 2⟩

/-- A collaborator whose revoke call always raises `discord.HTTPException` (network/timeout). -/
def collabHTTP : Row → RowOutcome := fun _ => RowOutcome.revokeHTTPError

/-- A store holding one expired grant, used against an unreachable collaborator. -/
def dbC3 : Db := ⟨true, true, true, [⟨1, 1, 10, 99, 5, 0⟩], 2⟩

/-- A fully unavailable collaborator: every call made for a row raises. -/
def collabDown : Row → RowOutcome := fun _ => RowOutcome.processingError

/-- A store holding one grant of principal 1 in realm 10 whose expiry (5) has passed. -/
def dbC4 : Db := ⟨true, true, true, [⟨1, 1, 10, 99, 5, 0⟩], 2⟩

/-- A store whose table order lists a later expiry (5) before an earlier one (3). -/
def dbC5 : Db := ⟨true, true, true, [⟨1, 1, 10, 99, 5, 0⟩, ⟨2, 2, 10, 99, 3, 0⟩], 3⟩

/-- A store holding two expired grants for distinct principals. -/
def dbC6 : Db := ⟨true, true, true, [⟨1, 1, 10, 99, 5, 0⟩, ⟨2, 2, 10, 98, 4, 0⟩], 3⟩

/-- A collaborator for which revoking row 1 is Forbidden and every other revoke succeeds. -/
def collabC6 : Row → RowOutcome := fun r =>
  if r.id == 1 then RowOutcome.revokeForbidden else RowOutcome.revokeOk

/-- A connectivity history in which the first connect attempt fails and all later attempts would succeed. -/
def attFailFirst : Nat → Bool := fun i => decide (0 < i)

/-- A store holding two expired grants, both revocable. -/
def dbC8 : Db := ⟨true, true, true, [⟨1, 1, 10, 99, 5, 0⟩, ⟨2, 2, 10, 98, 4, 0⟩], 3⟩

/-- A fully available collaborator: every revoke call succeeds. -/
def collabAllOk : Row → RowOutcome := fun _ => RowOutcome.revokeOk

/-- A store holding one grant, used to observe read operations under query failure. -/
def dbC9 : Db := ⟨true, true, true, [⟨1, 1, 10, 99, 5, 0⟩], 2⟩

/-!
General lemmas about the embedded operations, shared by the claim theorems below.
-/

/-- Mapping an update over a list and filtering by a predicate the update preserves
equals filtering first and updating the survivors. -/
lemma filter_map_update (p : Row → Bool) (f : Row → Row) (hf : ∀ r, p (f r) = p r)
    (l : List Row) :
    (l.map (fun r => if p r then f r else r)).filter p = (l.filter p).map f := by
  induction l with
  | nil => rfl
  | cons a tl ih =>
    cases hpa : p a with
    | true => simp [List.filter_cons, hpa, hf a, ih]
    | false => simp [List.filter_cons, hpa, ih]

/-- Every branch of the cleanup loop body appends the row id to `roles_to_delete`;
exactly the confirmed-removal branch increments `roles_processed`. -/
lemma processRow_eq (acc : List Nat × Nat) (r : Row) (o : RowOutcome) :
    processRow acc r o =
      (acc.1 ++ [r.id], acc.2 + (if o = RowOutcome.revokeOk then 1 else 0)) := by
  cases o <;> simp [processRow]

/-- Closed form of the cleanup loop fold: the deletion list collects every expired
row id in order, and the processed counter counts the confirmed removals. -/
lemma foldl_processRow (collab : Row → RowOutcome) :
    ∀ (l : List Row) (acc : List Nat × Nat),
      l.foldl (fun acc r => processRow acc r (collab r)) acc =
        (acc.1 ++ l.map Row.id,
         acc.2 + (l.filter (fun r => decide (collab r = RowOutcome.revokeOk))).length) := by
  intro l
  induction l with
  | nil => intro acc; simp
  | cons a tl ih =>
    intro acc
    rw [List.foldl_cons, processRow_eq, ih]
    by_cases hc : collab a = RowOutcome.revokeOk <;>
      simp [List.filter_cons, hc, List.append_assoc] <;> omega

/-- Closed form of `runLoop` started from the empty accumulator. -/
lemma runLoop_closed (collab : Row → RowOutcome) (l : List Row) :
    runLoop collab l =
      (l.map Row.id, (l.filter (fun r => decide (collab r = RowOutcome.revokeOk))).length) := by
  unfold runLoop
  rw [foldl_processRow]
  simp

/-- With pairwise-distinct row ids, an id of a stored row appears among the filtered
ids exactly when that row satisfies the filter. -/
lemma mem_map_filter_id (rows : List Row) (p : Row → Bool) (hnd : (rows.map Row.id).Nodup)
    (r : Row) (hr : r ∈ rows) :
    r.id ∈ (rows.filter p).map Row.id ↔ p r = true := by
  constructor
  · intro hmem
    obtain ⟨r2, hr2, hid⟩ := List.mem_map.mp hmem
    obtain ⟨hr2m, hp2⟩ := List.mem_filter.mp hr2
    have h2 : r2 = r := List.inj_on_of_nodup_map hnd hr2m hr hid
    exact h2 ▸ hp2
  · intro hp
    exact List.mem_map.mpr ⟨r, List.mem_filter.mpr ⟨hr, hp⟩, rfl⟩

/-- With pairwise-distinct row ids, deleting by the ids of the rows satisfying `p`
is the same as keeping exactly the rows violating `p`. -/
lemma filter_delete (rows : List Row) (p : Row → Bool) (hnd : (rows.map Row.id).Nodup) :
    rows.filter (fun r => !(decide (r.id ∈ (rows.filter p).map Row.id))) =
      rows.filter (fun r => !(p r)) := by
  apply List.filter_congr
  intro r hr
  have h := mem_map_filter_id rows p hnd r hr
  by_cases hp : p r = true
  · simp [hp, h.mpr hp]
  · have hnm : ¬ r.id ∈ (rows.filter p).map Row.id := fun hm => hp (h.mp hm)
    have hp2 : p r = false := by simpa using hp
    simp [hnm, hp2]

/-- The rows kept and the rows dropped by a Boolean split add up to the whole table. -/
lemma length_filter_not_add (p : Row → Bool) (l : List Row) :
    (l.filter (fun r => !(p r))).length + (l.filter p).length = l.length := by
  induction l with
  | nil => rfl
  | cons a tl ih =>
    cases hpa : p a <;> (simp [List.filter_cons, hpa]; omega)

/-- A reconciliation pass with a healthy store: it returns successfully, deletes
exactly the expired rows whatever the collaborator outcomes, hands the full list of
expired ids to the DELETE statement, counts exactly the confirmed removals, and
returns `None` as its Python value. -/
lemma cleanup_healthy (db : Db) (collab : Row → RowOutcome) (now : Int)
    (hnd : (db.rows.map Row.id).Nodup) :
    cleanup_expired_roles true true true true db collab now =
      Except.ok ⟨{ db with
          tableExists := true
          idxExpiry := true
          idxUserGuild := true
          rows := db.rows.filter (fun r => !(decide (r.expiry_time ≤ now))) },
        (listExpired db now).map Row.id,
        ((listExpired db now).filter (fun r => decide (collab r = RowOutcome.revokeOk))).length,
        none⟩ := by
  have h1 : cleanup_expired_roles true true true true db collab now =
      (if (listExpired db now).isEmpty then
         Except.ok ⟨{ db with tableExists := true, idxExpiry := true, idxUserGuild := true },
           [], 0, none⟩
       else
         let res := runLoop collab (listExpired db now)
         if res.1.isEmpty then
           Except.ok ⟨{ db with tableExists := true, idxExpiry := true, idxUserGuild := true },
             res.1, res.2, none⟩
         else
           Except.ok ⟨{ db with
               tableExists := true
               idxExpiry := true
               idxUserGuild := true
               rows := db.rows.filter (fun r => !(decide (r.id ∈ res.1))) },
             res.1, res.2, none⟩) := rfl
  rw [h1]
  by_cases he : (listExpired db now).isEmpty
  · rw [if_pos he]
    have hexp : listExpired db now = [] := by simpa using he
    have hall : ∀ r ∈ db.rows, decide (r.expiry_time ≤ now) = false := by
      intro r hr
      have hnp := List.filter_eq_nil_iff.mp hexp r hr
      simpa using hnp
    have hrows : db.rows.filter (fun r => !(decide (r.expiry_time ≤ now))) = db.rows := by
      apply List.filter_eq_self.mpr
      intro r hr
      simp [hall r hr]
    simp [hexp, hrows]
  · rw [if_neg he]
    have hne : listExpired db now ≠ [] := by simpa using he
    simp only [runLoop_closed]
    have hmape : ¬ (((listExpired db now).map Row.id).isEmpty = true) := by
      cases hq : listExpired db now with
      | nil => exact absurd hq hne
      | cons a tl => simp [hq]
    rw [if_neg hmape]
    have hdel : db.rows.filter
        (fun r => !(decide (r.id ∈ (listExpired db now).map Row.id))) =
        db.rows.filter (fun r => !(decide (r.expiry_time ≤ now))) := by
      have := filter_delete db.rows (fun r => decide (r.expiry_time ≤ now)) hnd
      simpa [listExpired] using this
    rw [hdel]

/-- Updating expiry and assignment time does not change the conflict key. -/
lemma sameTriple_update (r : Row) (u g ro t n : Int) :
    sameTriple { r with expiry_time := t, assigned_at := n } u g ro = sameTriple r u g ro := rfl

/-- If at most one row holds the triple (the UNIQUE constraint), then after an
upsert exactly one row holds it, carrying the new expiry and assignment time. -/
lemma tripleRows_upsert (db : Db) (u g ro t n : Int)
    (h : (tripleRows db u g ro).length ≤ 1) :
    ∃ i, tripleRows (upsert db u g ro t n) u g ro = [⟨i, u, g, ro, t, n⟩] := by
  unfold tripleRows at h ⊢
  unfold upsert
  by_cases hany : db.rows.any (fun r => sameTriple r u g ro) = true
  · rw [if_pos hany]
    have hmap : (db.rows.map (fun r =>
        if sameTriple r u g ro then { r with expiry_time := t, assigned_at := n } else r)).filter
          (fun r => sameTriple r u g ro) =
        (db.rows.filter (fun r => sameTriple r u g ro)).map
          (fun r => { r with expiry_time := t, assigned_at := n }) :=
      filter_map_update (fun r => sameTriple r u g ro)
        (fun r => { r with expiry_time := t, assigned_at := n })
        (fun r => sameTriple_update r u g ro t n) db.rows
    obtain ⟨r0, hr0m, hp0⟩ := List.any_eq_true.mp hany
    have hne : db.rows.filter (fun r => sameTriple r u g ro) ≠ [] := by
      intro hnil
      have hmem : r0 ∈ db.rows.filter (fun r => sameTriple r u g ro) :=
        List.mem_filter.mpr ⟨hr0m, hp0⟩
      rw [hnil] at hmem
      exact absurd hmem (List.not_mem_nil r0)
    have hlen1 : (db.rows.filter (fun r => sameTriple r u g ro)).length = 1 :=
      Nat.le_antisymm h (List.length_pos.mpr hne)
    obtain ⟨r1, hr1⟩ := List.length_eq_one.mp hlen1
    have hp1 : sameTriple r1 u g ro = true := by
      have hmem : r1 ∈ db.rows.filter (fun r => sameTriple r u g ro) := by
        rw [hr1]; exact List.mem_cons_self r1 []
      exact (List.mem_filter.mp hmem).2
    have hfields : (r1.user_id = u ∧ r1.guild_id = g) ∧ r1.role_id = ro := by
      simpa [sameTriple, Bool.and_eq_true, beq_iff_eq] using hp1
    refine ⟨r1.id, ?_⟩
    show (db.rows.map _).filter _ = _
    rw [hmap, hr1]
    simp [hfields.1.1, hfields.1.2, hfields.2]
  · rw [if_neg hany]
    have hany2 : db.rows.any (fun r => sameTriple r u g ro) = false := by
      simpa using hany
    have hnil : db.rows.filter (fun r => sameTriple r u g ro) = [] := by
      apply List.filter_eq_nil_iff.mpr
      intro a ha
      have := List.any_eq_false.mp hany2 a ha
      simpa using this
    have hpnew : sameTriple ⟨db.nextId, u, g, ro, t, n⟩ u g ro = true := by
      simp [sameTriple]
    refine ⟨db.nextId, ?_⟩
    show (db.rows ++ [(⟨db.nextId, u, g, ro, t, n⟩ : Row)]).filter _ = _
    rw [List.filter_append, hnil]
    simp [hpnew]

/-!
The claim theorems.
-/

/-- C1 (confirmed): for every valid triple and any two expiries, calling grant
(`schedule_role_removal`) twice with the same `(user_id, guild_id, role_id)` and two
expiries leaves exactly one row for that triple, whose `expiry_time` is the second
value and whose `assigned_at` is refreshed to the second call time — the second call
replaces rather than duplicates, regardless of the expiry values. -/
theorem c1_grant_twice_replaces (db : Db) (u g ro t1 t2 n1 n2 : Int)
    (h : (tripleRows db u g ro).length ≤ 1) :
    ∃ db1 db2, schedule_role_removal true true true db u g ro t1 n1 = Except.ok db1 ∧
      schedule_role_removal true true true db1 u g ro t2 n2 = Except.ok db2 ∧
      (tripleRows db2 u g ro).length = 1 ∧
      ∀ r ∈ tripleRows db2 u g ro, r.expiry_time = t2 ∧ r.assigned_at = n2 := by
  refine ⟨_, _, rfl, rfl, ?_, ?_⟩ <;>
  · have h0 : (tripleRows (ensured db) u g ro).length ≤ 1 := h
    obtain ⟨i1, h1⟩ := tripleRows_upsert (ensured db) u g ro t1 n1 h0
    have h0b : (tripleRows (ensured (upsert (ensured db) u g ro t1 n1)) u g ro).length ≤ 1 := by
      show (tripleRows (upsert (ensured db) u g ro t1 n1) u g ro).length ≤ 1
      rw [h1]
      simp
    obtain ⟨i2, h2⟩ := tripleRows_upsert (ensured (upsert (ensured db) u g ro t1 n1)) u g ro t2 n2 h0b
    first
    | (show (tripleRows (upsert (ensured (upsert (ensured db) u g ro t1 n1)) u g ro t2 n2) u g ro).length = 1
       rw [h2]
       rfl)
    | (show ∀ r ∈ tripleRows (upsert (ensured (upsert (ensured db) u g ro t1 n1)) u g ro t2 n2) u g ro,
          r.expiry_time = t2 ∧ r.assigned_at = n2
       rw [h2]
       intro r hr
       have hr2 : r = ⟨i2, u, g, ro, t2, n2⟩ := by simpa using hr
       subst hr2
       exact ⟨rfl, rfl⟩)

/-- C1 witness: the replacement law evaluated on a fresh store with triple
`(1, 10, 99)` and expiries 5 then 8. -/
theorem c1_witness :
    (tripleRows freshDb 1 10 99).length ≤ 1 ∧
    (∃ db1 db2, schedule_role_removal true true true freshDb 1 10 99 5 0 = Except.ok db1 ∧
      schedule_role_removal true true true db1 1 10 99 8 1 = Except.ok db2 ∧
      (tripleRows db2 1 10 99).length = 1 ∧
      ∀ r ∈ tripleRows db2 1 10 99, r.expiry_time = 8 ∧ r.assigned_at = 1) :=
  ⟨by decide, c1_grant_twice_replaces freshDb 1 10 99 5 8 0 1 (by decide)⟩

/-- C2 counterexample: one expired grant whose revoke raises
`discord.HTTPException` (a transient network failure) is nevertheless added to the
deletion set (`deletedIds = [1]`) and removed from the store (`rows = []`),
contradicting the claim that the row is left for the next pass. -/
theorem c2_counterexample :
    cleanup_expired_roles true true true true dbC2 collabHTTP 10 =
      Except.ok ⟨⟨true, true, true, [], 2⟩, [1], 0, none⟩ := by decide

/-- C2 (corrected): an expired grant whose revoke fails transiently (HTTP error or
any unexpected exception) is still added to the deletion set and removed from the
store by the same pass — it is never left behind for a retry. -/
theorem c2_transient_removed (db : Db) (collab : Row → RowOutcome) (now : Int)
    (hnd : (db.rows.map Row.id).Nodup) (r : Row) (hr : r ∈ db.rows)
    (hexp : r.expiry_time ≤ now)
    (_htr : collab r = RowOutcome.revokeHTTPError ∨ collab r = RowOutcome.revokeOtherError) :
    ∃ res, cleanup_expired_roles true true true true db collab now = Except.ok res ∧
      r.id ∈ res.deletedIds ∧ r ∉ res.db.rows := by
  refine ⟨_, cleanup_healthy db collab now hnd, ?_, ?_⟩
  · exact List.mem_map.mpr ⟨r, List.mem_filter.mpr ⟨hr, by simpa using hexp⟩, rfl⟩
  · intro hmem
    have h2 := (List.mem_filter.mp hmem).2
    simp [hexp] at h2

/-- C2 witness: the corrected statement evaluated on a one-row store whose revoke
call raises an HTTP error. -/
theorem c2_witness :
    ((dbC2.rows.map Row.id).Nodup ∧ (⟨1, 1, 10, 99, 5, 0⟩ : Row) ∈ dbC2.rows ∧
      (⟨1, 1, 10, 99, 5, 0⟩ : Row).expiry_time ≤ 10 ∧
      collabHTTP ⟨1, 1, 10, 99, 5, 0⟩ = RowOutcome.revokeHTTPError) ∧
    (∃ res, cleanup_expired_roles true true true true dbC2 collabHTTP 10 = Except.ok res ∧
      (1 : Nat) ∈ res.deletedIds ∧ (⟨1, 1, 10, 99, 5, 0⟩ : Row) ∉ res.db.rows) :=
  ⟨⟨by decide, by decide, by decide, rfl⟩,
    c2_transient_removed dbC2 collabHTTP 10 (by decide) ⟨1, 1, 10, 99, 5, 0⟩ (by decide)
      (by decide) (Or.inl rfl)⟩

/-- C3 counterexample: with one expired row and a collaborator whose every call
fails, the pass still deletes the row — the row count drops from 1 to 0 instead of
staying identical as claimed. -/
theorem c3_counterexample :
    dbC3.rows.length = 1 ∧
    cleanup_expired_roles true true true true dbC3 collabDown 10 =
      Except.ok ⟨⟨true, true, true, [], 2⟩, [1], 0, none⟩ := by decide

/-- C3 (corrected): a pass in which every collaborator call fails completes without
raising past the pass boundary and confirms zero revocations, but it deletes every
expired row rather than leaving the store unchanged. -/
theorem c3_collab_down (db : Db) (now : Int) (hnd : (db.rows.map Row.id).Nodup) :
    ∃ res, cleanup_expired_roles true true true true db (fun _ => RowOutcome.processingError) now =
        Except.ok res ∧
      res.processed = 0 ∧
      res.db.rows = db.rows.filter (fun r => !(decide (r.expiry_time ≤ now))) := by
  refine ⟨_, cleanup_healthy db _ now hnd, ?_, rfl⟩
  simp

/-- C3 witness: the corrected statement evaluated on a one-row store. -/
theorem c3_witness :
    (dbC3.rows.map Row.id).Nodup ∧
    (∃ res, cleanup_expired_roles true true true true dbC3 (fun _ => RowOutcome.processingError) 10 =
        Except.ok res ∧
      res.processed = 0 ∧
      res.db.rows = dbC3.rows.filter (fun r => !(decide (r.expiry_time ≤ 10)))) :=
  ⟨by decide, c3_collab_down dbC3 10 (by decide)⟩

/-- C4 counterexample: at query time 10, `get_user_temp_roles` returns the grant of
principal 1 in realm 10 although its expiry 5 is in the past, contradicting the
claim that a grant with `expiry_time <= now` is never returned. -/
theorem c4_counterexample :
    get_user_temp_roles true true true dbC4 1 10 = Except.ok [⟨1, 1, 10, 99, 5, 0⟩] ∧
    (⟨1, 1, 10, 99, 5, 0⟩ : Row).expiry_time ≤ 10 := by decide

/-- C4 (corrected): `get_user_temp_roles` returns all grants of the principal and
realm — with no filter on expiry, so expired but not-yet-reconciled grants are
included — ordered by `expiry_time` ascending. -/
theorem c4_all_rows_sorted (db : Db) (u g : Int) :
    ∃ l, get_user_temp_roles true true true db u g = Except.ok l ∧
      (∀ r, r ∈ l ↔ r ∈ db.rows ∧ r.user_id = u ∧ r.guild_id = g) ∧
      List.Sorted expiryLe l := by
  refine ⟨_, rfl, ?_, ?_⟩
  · intro r
    rw [List.mem_insertionSort, List.mem_filter]
    simp [Bool.and_eq_true, beq_iff_eq]
  · exact List.sorted_insertionSort expiryLe _

/-- C5 counterexample: the expired-rows query returns a row with expiry 5 before a
row with expiry 3, because the SELECT has no ORDER BY — contradicting the claimed
oldest-expired-first ordering. -/
theorem c5_counterexample :
    (listExpired dbC5 10).map Row.expiry_time = [5, 3] ∧
    ¬ List.Sorted expiryLe (listExpired dbC5 10) := by decide

/-- C5 (corrected): the expired-rows query returns exactly the grants with
`expiry_time <= now` — all of them and no others — but in table order; the source
query has no ORDER BY clause, so no expiry ordering is guaranteed. -/
theorem c5_expired_membership (db : Db) (now : Int) (r : Row) :
    r ∈ listExpired db now ↔ r ∈ db.rows ∧ r.expiry_time ≤ now := by
  unfold listExpired
  rw [List.mem_filter]
  simp

/-- C6 (confirmed): every expired grant whose revoke is Forbidden is still added to
the deletion set and removed from the store; the pass deletes all expired rows, so
the row count drops by the full number of expired grants, while the revoked counter
counts only the confirmed removals and therefore excludes the Forbidden ones. -/
theorem c6_forbidden_still_removed (db : Db) (collab : Row → RowOutcome) (now : Int)
    (hnd : (db.rows.map Row.id).Nodup) :
    ∃ res, cleanup_expired_roles true true true true db collab now = Except.ok res ∧
      (∀ r ∈ db.rows, r.expiry_time ≤ now → collab r = RowOutcome.revokeForbidden →
        r.id ∈ res.deletedIds ∧ r ∉ res.db.rows) ∧
      res.db.rows.length + (listExpired db now).length = db.rows.length ∧
      res.processed =
        ((listExpired db now).filter (fun r => decide (collab r = RowOutcome.revokeOk))).length := by
  refine ⟨_, cleanup_healthy db collab now hnd, ?_, ?_, rfl⟩
  · intro r hr hexp _
    constructor
    · exact List.mem_map.mpr ⟨r, List.mem_filter.mpr ⟨hr, by simpa using hexp⟩, rfl⟩
    · intro hmem
      have h2 := (List.mem_filter.mp hmem).2
      simp [hexp] at h2
  · exact length_filter_not_add (fun r => decide (r.expiry_time ≤ now)) db.rows

/-- C6 witness: the statement evaluated on a store with two expired grants, one
Forbidden and one revocable. -/
theorem c6_witness :
    (dbC6.rows.map Row.id).Nodup ∧
    (∃ res, cleanup_expired_roles true true true true dbC6 collabC6 10 = Except.ok res ∧
      (∀ r ∈ dbC6.rows, r.expiry_time ≤ 10 → collabC6 r = RowOutcome.revokeForbidden →
        r.id ∈ res.deletedIds ∧ r ∉ res.db.rows) ∧
      res.db.rows.length + (listExpired dbC6 10).length = dbC6.rows.length ∧
      res.processed =
        ((listExpired dbC6 10).filter (fun r => decide (collabC6 r = RowOutcome.revokeOk))).length) :=
  ⟨by decide, c6_forbidden_still_removed dbC6 collabC6 10 (by decide)⟩

/-- C7 counterexample: when the first connect attempt fails but a second attempt
would succeed, `_get_connection` fails after exactly one attempt, having run no
liveness query and waited no time, while the specified 3-attempt, 5-second-spaced,
liveness-checked connect would have succeeded on its second attempt. -/
theorem c7_counterexample :
    (get_connection attFailFirst).ok = false ∧
    (get_connection attFailFirst).attemptsMade = 1 ∧
    (get_connection attFailFirst).livenessQueries = 0 ∧
    (get_connection attFailFirst).waitedSeconds = 0 ∧
    (connect_spec attFailFirst true).ok = true ∧
    (connect_spec attFailFirst true).attemptsMade = 2 ∧
    (connect_spec attFailFirst true).livenessQueries = 1 ∧
    (connect_spec attFailFirst true).waitedSeconds = 5 := by decide

/-- C7 (corrected): establishing a store connection makes exactly one attempt —
no retries, no inter-attempt delay — and runs no liveness round-trip query before
declaring success; success is exactly the success of that single attempt. The
`SELECT 1` liveness probe exists only in the never-called `test_connection`. -/
theorem c7_single_attempt (attempt : Nat → Bool) :
    (get_connection attempt).ok = attempt 0 ∧
    (get_connection attempt).attemptsMade = 1 ∧
    (get_connection attempt).livenessQueries = 0 ∧
    (get_connection attempt).waitedSeconds = 0 :=
  ⟨rfl, rfl, rfl, rfl⟩

/-- C8 counterexample: a pass over two expired revocable grants confirms 2
revocations, yet `cleanup_expired_roles` returns `None` (no integer), and the
manual cleanup command reports the remaining scheduled count 0 — not the revoked
count 2 — to its caller. -/
theorem c8_counterexample :
    cleanup_expired_roles true true true true dbC8 collabAllOk 10 =
      Except.ok ⟨⟨true, true, true, [], 3⟩, [1, 2], 2, none⟩ ∧
    cleanup_command true true true true true true true dbC8 collabAllOk 10 =
      ⟨⟨true, true, true, [], 3⟩, some 0, false⟩ := by decide

/-- C8 (corrected): the pass counts the grants actually revoked in its logged
`roles_processed` counter but returns `None` rather than that count; the manual
cleanup trigger does not return the revoked count — it reports the number of rows
still scheduled after the pass. -/
theorem c8_logs_but_returns_none (db : Db) (collab : Row → RowOutcome) (now : Int)
    (hnd : (db.rows.map Row.id).Nodup) :
    ∃ res, cleanup_expired_roles true true true true db collab now = Except.ok res ∧
      res.processed =
        ((listExpired db now).filter (fun r => decide (collab r = RowOutcome.revokeOk))).length ∧
      res.ret = none ∧
      cleanup_command true true true true true true true db collab now =
        ⟨res.db, some res.db.rows.length, false⟩ := by
  refine ⟨_, cleanup_healthy db collab now hnd, rfl, rfl, ?_⟩
  unfold cleanup_command
  rw [cleanup_healthy db collab now hnd]
  rfl

/-- C8 witness: the corrected statement evaluated on a store with two expired
revocable grants. -/
theorem c8_witness :
    (dbC8.rows.map Row.id).Nodup ∧
    (∃ res, cleanup_expired_roles true true true true dbC8 collabAllOk 10 = Except.ok res ∧
      res.processed =
        ((listExpired dbC8 10).filter (fun r => decide (collabAllOk r = RowOutcome.revokeOk))).length ∧
      res.ret = none ∧
      cleanup_command true true true true true true true dbC8 collabAllOk 10 =
        ⟨res.db, some res.db.rows.length, false⟩) :=
  ⟨by decide, c8_logs_but_returns_none dbC8 collabAllOk 10 (by decide)⟩

/-- C9 counterexample: when the fetch fails after a connection was established,
`get_user_temp_roles` silently returns an empty list and `get_scheduled_count`
silently returns 0 — hiding an existing grant — instead of surfacing the storage
error as claimed. -/
theorem c9_counterexample :
    get_user_temp_roles true true false dbC9 1 10 = Except.ok [] ∧
    get_user_temp_roles true true true dbC9 1 10 = Except.ok [⟨1, 1, 10, 99, 5, 0⟩] ∧
    get_scheduled_count true true false dbC9 = Except.ok 0 ∧
    get_scheduled_count true true true dbC9 = Except.ok 1 := by decide

/-- C9 (corrected): when the connection (or the schema-ensure step) cannot be
established, every store operation surfaces the same storage-unavailable error;
but when a query fails after a connection is established, only grant scheduling and
the reconciliation pass surface it — the reads return an empty list and a zero
count silently. -/
theorem c9_propagation (db : Db) (u g ro t now : Int) (collab : Row → RowOutcome)
    (cok xok fok dok : Bool) :
    (schedule_role_removal false cok xok db u g ro t now =
      Except.error DbError.storageUnavailable) ∧
    (get_user_temp_roles false cok fok db u g = Except.error DbError.storageUnavailable) ∧
    (get_scheduled_count false cok fok db = Except.error DbError.storageUnavailable) ∧
    (cleanup_expired_roles false cok fok dok db collab now =
      Except.error DbError.storageUnavailable) ∧
    (get_user_temp_roles true false fok db u g = Except.error DbError.storageUnavailable) ∧
    (get_scheduled_count true false fok db = Except.error DbError.storageUnavailable) ∧
    (schedule_role_removal true true false db u g ro t now =
      Except.error DbError.storageUnavailable) ∧
    (cleanup_expired_roles true true false dok db collab now =
      Except.error DbError.storageUnavailable) ∧
    (get_user_temp_roles true true false db u g = Except.ok []) ∧
    (get_scheduled_count true true false db = Except.ok 0) :=
  ⟨rfl, rfl, rfl, rfl, rfl, rfl, rfl, rfl, rfl, rfl⟩

/-- C10 (confirmed): every public store operation — scheduling a grant, the
reconciliation pass, listing the grants of a principal, the row count, and removal
by triple — first idempotently ensures the table and its two indexes exist, so any
of them can be the first operation ever run against a fresh, empty database and
still succeeds with the schema in place. -/
theorem c10_fresh_db (db : Db) (u g ro t now : Int) (collab : Row → RowOutcome) :
    freshDb.tableExists = false ∧ freshDb.idxExpiry = false ∧ freshDb.idxUserGuild = false ∧
    (∃ db1, schedule_role_removal true true true freshDb u g ro t now = Except.ok db1 ∧
      db1.tableExists = true ∧ db1.idxExpiry = true ∧ db1.idxUserGuild = true) ∧
    (∃ res, cleanup_expired_roles true true true true freshDb collab now = Except.ok res) ∧
    (∃ l, get_user_temp_roles true true true freshDb u g = Except.ok l) ∧
    (get_scheduled_count true true true freshDb = Except.ok 0) ∧
    (∃ p, remove_scheduled_role true true true freshDb u g ro = Except.ok p) ∧
    (∀ d1, ensure_table_exists true db = Except.ok d1 →
      ensure_table_exists true d1 = Except.ok d1) := by
  refine ⟨rfl, rfl, rfl, ⟨_, rfl, rfl, rfl, rfl⟩, ⟨_, rfl⟩, ⟨_, rfl⟩, rfl, ⟨_, rfl⟩, ?_⟩
  intro d1 h1
  have h2 : d1 = ensured db := by
    injection h1 with h3
    exact h3.symm
  subst h2
  rfl

end RankBot
